import Mathlib

/-!
Shallow embedding of the oa-verify document-status verifiers.

The token-registry verifier is translated from
src/verifiers/documentStatus/tokenRegistryStatus/openAttestationEthereumTokenRegistryStatus.ts.
The DID-signed document-status verifier and the document-store `execute`
wrapper are present in the repository only through their test suites, so
their bodies are modelled from the specification (each such definition
carries a doc comment saying so).

JavaScript promises are modelled by total functions returning
`Except JsError _` for fallible boundaries; the capability providers
(chain reads, key resolution) are passed in as explicit function
parameters.  Where a claim is about how many capability calls are made,
`verify` additionally returns the trace of calls it dispatched.
-/

/-- A thrown JavaScript `Error`: all the code reads from it is `message`. -/
structure JsError where
  message : String
  deriving Repr, DecidableEq

/-- The `{code, codeString, message}` object attached to non-VALID fragments. -/
structure Reason where
  code : Nat
  codeString : String
  message : String
  deriving Repr, DecidableEq

/-- Fragment status: `"VALID" | "INVALID" | "ERROR" | "SKIPPED"`. -/
inductive FragmentStatus
  | VALID
  | INVALID
  | ERROR
  | SKIPPED
  deriving Repr, DecidableEq

/-- A verification fragment, generic over the verifier-specific `data` payload. -/
structure VerificationFragment (α : Type) where
  name : String
  type : String
  status : FragmentStatus
  data : Option α
  reason : Option Reason
  deriving Repr, DecidableEq

/-! ## Token-registry verifier: document model -/

/-- Whether the wrapped document is a v2 or a v3 OpenAttestation document
(`utils.isWrappedV3Document` distinguishes them). -/
inductive DocKind
  | v2
  | v3
  deriving Repr, DecidableEq

/-- A v2 issuer as the token-registry verifier sees it: it may carry a
`tokenRegistry` contract address. -/
structure TokenIssuer where
  name : String
  tokenRegistry : Option String
  deriving Repr, DecidableEq

/-- The v3 `proof` block: an identity-proof method tag and a value (the
token-registry contract address when the method is TOKEN_REGISTRY). -/
structure V3Proof where
  method : String
  value : String
  deriving Repr, DecidableEq

/-- The signature block: the code reads `document.signature.merkleRoot`. -/
structure DocSignature where
  merkleRoot : String
  deriving Repr, DecidableEq

/-- The slice of a wrapped document consumed by the token-registry verifier. -/
structure TokenDocument where
  kind : DocKind
  issuers : List TokenIssuer
  proof : Option V3Proof
  signature : DocSignature
  deriving Repr, DecidableEq

/-- `utils.isWrappedV3Document document` in the embedding. -/
def isWrappedV3Document (d : TokenDocument) : Bool :=
  d.kind = DocKind.v3

/-- Append an element unless it is already present (keeps first occurrences). -/
def addDistinct (acc : List String) (a : String) : List String :=
  if a ∈ acc then acc else acc ++ [a]

/-- Modelled from the spec: `getIssuersTokenRegistry` (imported from
`common/utils`, not part of the visible slice) collects the distinct
token-registry addresses referenced by the issuers of the document — the
`tokenRegistry` fields of v2 issuers, or the v3 proof value when the
identity-proof method is TOKEN_REGISTRY — in discovery order. -/
def getIssuersTokenRegistry (d : TokenDocument) : List String :=
  match d.kind with
  | DocKind.v3 =>
    match d.proof with
    | some p => if p.method = "TOKEN_REGISTRY" then [p.value] else []
    | none => []
  | DocKind.v2 =>
    (d.issuers.filterMap (fun issuer => issuer.tokenRegistry)).foldl addDistinct []

/-! ## Token-registry verifier: error codes and reasons -/

namespace OpenAttestationEthereumTokenRegistryStatusCode

/-- Modelled from the spec: the shared error-code taxonomy enum
(`types/error`, not part of the visible slice).  The claims depend only on
the identity of `UNEXPECTED_ERROR` and `SKIPPED`, not the numerals. -/
def UNEXPECTED_ERROR : Nat := 0

def DOCUMENT_NOT_MINTED : Nat := 1

def SKIPPED : Nat := 4

end OpenAttestationEthereumTokenRegistryStatusCode

/-- Modelled from the spec: `contractNotMinted` (from `./errors`, not part
of the visible slice) builds the business-rule reason recorded when the
token for the merkle root is not minted on a registry. -/
def contractNotMinted (merkleRoot : String) (address : String) : Reason :=
  { code := OpenAttestationEthereumTokenRegistryStatusCode.DOCUMENT_NOT_MINTED
    codeString := "DOCUMENT_NOT_MINTED"
    message := "Document " ++ merkleRoot ++ " has not been issued under contract " ++ address }

/-- Modelled from the spec: `getErrorReason` (from `./errors`, not part of
the visible slice) derives a reason from a chain-call failure message,
preserving the raw failure description. -/
def getErrorReason (e : JsError) (address : String) (merkleRoot : String) : Reason :=
  { code := OpenAttestationEthereumTokenRegistryStatusCode.UNEXPECTED_ERROR
    codeString := "UNEXPECTED_ERROR"
    message := e.message ++ " (" ++ address ++ ", " ++ merkleRoot ++ ")" }

/-! ## Token-registry verifier: verify -/

/-- Per-registry `Status` record (`interface Status` in the source). -/
structure Status where
  minted : Bool
  address : String
  reason : Option Reason
  deriving Repr, DecidableEq

/-- `data.details` is a flat single status object for v3 documents
(`statuses[0]`) and an array of statuses for v2 documents. -/
inductive TokenDetails
  | flat (s : Option Status)
  | list (l : List Status)
  deriving Repr, DecidableEq

/-- The token-registry fragment `data`: on success the structured payload,
on the catch-all path the caught error itself (`data: e`). -/
inductive TokenData
  | result (mintedOnAll : Bool) (details : TokenDetails)
  | err (e : JsError)
  deriving Repr, DecidableEq

/-- The chain-read capability used by this verifier:
`ownerOf(tokenId)` on the registry contract at the given address, returning
the owner address or rejecting.  A `connect`/`ownerOf` failure is a
rejection. -/
def ChainOracle : Type := String → String → Except JsError String

/-- `constants.AddressZero` from ethers. -/
def AddressZero : String := "0x0000000000000000000000000000000000000000"

/-- One dispatched chain read: which registry was called with which token id. -/
structure ChainCall where
  registry : String
  tokenId : String
  deriving Repr, DecidableEq

namespace openAttestationEthereumTokenRegistryStatus

def name : String := "OpenAttestationEthereumTokenRegistryStatus"

def type : String := "DOCUMENT_STATUS"

/-- The constant SKIPPED fragment returned by `skip`. -/
def skip : VerificationFragment TokenData :=
  { name := name
    type := type
    status := FragmentStatus.SKIPPED
    data := none
    reason := some
      { code := OpenAttestationEthereumTokenRegistryStatusCode.SKIPPED
        codeString := "SKIPPED"
        message := "Document issuers doesn\x27t have \"tokenRegistry\" property or TOKEN_REGISTRY method" } }

/-- The applicability predicate `test`. -/
def test (d : TokenDocument) : Bool :=
  if isWrappedV3Document d then
    match d.proof with
    | some p => p.method = "TOKEN_REGISTRY"
    | none => false
  else
    d.issuers.any (fun issuer => issuer.tokenRegistry.isSome)

/-- The token identifier queried on chain:
`const merkleRoot = \x7b0x + document.signature.merkleRoot\x7d` (line 52 of the
source; no padding is applied to the stored string). -/
def queriedTokenId (d : TokenDocument) : String :=
  "0x" ++ d.signature.merkleRoot

/-- The per-registry closure inside `Promise.all` (lines 54-71): one chain
round trip; a rejection is caught at the registry boundary and recorded as
`minted = false` with a derived reason. -/
def checkRegistry (oracle : ChainOracle) (merkleRoot : String) (tokenRegistry : String) :
    Status :=
  match oracle tokenRegistry merkleRoot with
  | Except.error e =>
    { minted := false, address := tokenRegistry
      reason := some (getErrorReason e tokenRegistry merkleRoot) }
  | Except.ok owner =>
    let minted : Bool := !(owner = AddressZero)
    if minted then
      { minted := true, address := tokenRegistry, reason := none }
    else
      { minted := false, address := tokenRegistry
        reason := some (contractNotMinted merkleRoot tokenRegistry) }

/-- The per-registry statuses produced by the `Promise.all` over the
discovered registries (line 53): one `checkRegistry` result per registry,
in discovery order, all against the same queried token identifier. -/
def tokenStatuses (oracle : ChainOracle) (d : TokenDocument) : List Status :=
  (getIssuersTokenRegistry d).map (checkRegistry oracle (queriedTokenId d))

/-- The chain calls dispatched by the `Promise.all`: one round trip per
discovered registry. -/
def chainCallsFor (d : TokenDocument) : List ChainCall :=
  (getIssuersTokenRegistry d).map (fun r => ChainCall.mk r (queriedTokenId d))

/-- `data.details` (lines 78 and 86): `statuses[0]` for v3 documents, the
whole array for v2 documents. -/
def detailsFor (d : TokenDocument) (statuses : List Status) : TokenDetails :=
  if isWrappedV3Document d then TokenDetails.flat statuses.head?
  else TokenDetails.list statuses

/-- The `try` body of `verify` (lines 47-88): either a fragment together
with the trace of chain calls dispatched, or the error it throws.  The only
throw site reachable in the typed embedding is the more-than-one-registry
guard (line 50). -/
def verifyBody (oracle : ChainOracle) (d : TokenDocument) :
    Except JsError (VerificationFragment TokenData × List ChainCall) :=
  if (getIssuersTokenRegistry d).length > 1 then
    Except.error
      ⟨"Only one token registry is allowed. Found " ++
        toString (getIssuersTokenRegistry d).length⟩
  else
    match (tokenStatuses oracle d).find? (fun status => !status.minted) with
    | some notMinted =>
      Except.ok
        ({ name := name, type := type
           data := some (TokenData.result false (detailsFor d (tokenStatuses oracle d)))
           reason := notMinted.reason
           status := FragmentStatus.INVALID }, chainCallsFor d)
    | none =>
      Except.ok
        ({ name := name, type := type
           data := some (TokenData.result true (detailsFor d (tokenStatuses oracle d)))
           reason := none
           status := FragmentStatus.VALID }, chainCallsFor d)

/-- The catch-all ERROR fragment (lines 89-104). -/
def unexpectedErrorFragment (e : JsError) : VerificationFragment TokenData :=
  { name := name
    type := type
    data := some (TokenData.err e)
    reason := some
      { message := e.message
        code := OpenAttestationEthereumTokenRegistryStatusCode.UNEXPECTED_ERROR
        codeString := "UNEXPECTED_ERROR" }
    status := FragmentStatus.ERROR }

/-- `verify`: the whole body is wrapped in try/catch, so it always returns a
fragment; the second component is the trace of chain calls dispatched. -/
def verify (oracle : ChainOracle) (d : TokenDocument) :
    VerificationFragment TokenData × List ChainCall :=
  match verifyBody oracle d with
  | Except.ok r => r
  | Except.error e => (unexpectedErrorFragment e, [])

end openAttestationEthereumTokenRegistryStatus

/-! ## DID-signed document-status verifier

The implementation (`didSignedDocumentStatus.ts`) is present in the
repository only through its test suite; the definitions below are modelled
from the specification, with error messages and numeric codes pinned by the
inline snapshots of that test suite. -/

/-- A revocation descriptor declared by an issuer; only `type = "NONE"` is
supported as a non-revoked state. -/
structure Revocation where
  revocationType : String
  deriving Repr, DecidableEq

/-- An issuer as the DID-signed verifier sees it: a DID and an optional
revocation block (`none` models a structurally missing block). -/
structure DidIssuer where
  did : String
  revocation : Option Revocation
  deriving Repr, DecidableEq

/-- A signature entry of the document proof array, binding a
verification-method identifier to a signature value. -/
structure ProofEntry where
  verificationMethod : String
  signature : String
  deriving Repr, DecidableEq

/-- The slice of a document consumed by the DID-signed verifier; `proof =
none` models a document missing the proof array entirely. -/
structure DidDocument where
  issuers : List DidIssuer
  proof : Option (List ProofEntry)
  deriving Repr, DecidableEq

/-- A resolved public key / verification method, as returned by the
key-resolution capability. -/
structure PublicKey where
  id : String
  keyType : String
  controller : String
  deriving Repr, DecidableEq

/-- The capability providers consumed by the DID-signed verifier: key
resolution (async, fallible — a rejection carries its failure message) and
cryptographic signature verification. -/
structure DidCapabilities where
  getPublicKey : String → Except String PublicKey
  verifySignature : ProofEntry → PublicKey → Bool

/-- Per-issuer issuance detail inside `data.details.issuance`. -/
structure IssuanceStatus where
  did : String
  issued : Bool
  reason : Option String
  deriving Repr, DecidableEq

/-- The DID-signed fragment `data`: on success the issuance details and the
recomputed aggregates, on the hard-ERROR path the caught error itself. -/
inductive DidData
  | result (issuance : List IssuanceStatus) (issuedOnAll : Bool) (revokedOnAny : Bool)
  | err (e : JsError)
  deriving Repr, DecidableEq

namespace OpenAttestationDidSignedDocumentStatus

def name : String := "OpenAttestationDidSignedDocumentStatus"

def type : String := "DOCUMENT_STATUS"

/-- Modelled from the spec: the DID-signed status code enum; the numerals
`SKIPPED = 0` and `UNEXPECTED_ERROR = 1` are pinned by the test snapshots. -/
def SKIPPED_CODE : Nat := 0

def UNEXPECTED_ERROR_CODE : Nat := 1

/-- Modelled from the spec: the constant SKIPPED fragment returned by
`skip`, field for field as in the test snapshot. -/
def skip : VerificationFragment DidData :=
  { name := name
    type := type
    status := FragmentStatus.SKIPPED
    data := none
    reason := some
      { code := SKIPPED_CODE
        codeString := "SKIPPED"
        message := "Document was not signed by DID directly" } }

/-- The whole-fragment hard-ERROR shape: `data` carries the error, `reason`
carries `UNEXPECTED_ERROR` and the failure description. -/
def unexpectedErrorFragment (e : JsError) : VerificationFragment DidData :=
  { name := name
    type := type
    data := some (DidData.err e)
    reason := some
      { code := UNEXPECTED_ERROR_CODE
        codeString := "UNEXPECTED_ERROR"
        message := e.message }
    status := FragmentStatus.ERROR }

/-- Modelled from the spec: the per-issuer issuance check, fully independent
per issuer.  Resolve the DID (a resolver rejection makes that issuer
`issued = false` with the resolver failure message as reason, without
aborting the others); locate the proof entry whose verification-method
identifier matches the resolved key (absence gives the
`Proof not found for <method id>` reason); otherwise `issued` is the
signature-verification capability result. -/
def issuerIssuance (caps : DidCapabilities) (proofEntries : List ProofEntry)
    (issuer : DidIssuer) : IssuanceStatus :=
  match caps.getPublicKey issuer.did with
  | Except.error msg =>
    { did := issuer.did, issued := false, reason := some msg }
  | Except.ok key =>
    match proofEntries.find? (fun p => p.verificationMethod = key.id) with
    | none =>
      { did := issuer.did, issued := false
        reason := some ("Proof not found for " ++ key.id) }
    | some p =>
      if caps.verifySignature p key then
        { did := issuer.did, issued := true, reason := none }
      else
        { did := issuer.did, issued := false, reason := none }

/-- Whether the issuer is treated as revoked: only a declared
`revocation.type = "NONE"` is a non-revoked state. -/
def issuerRevoked (issuer : DidIssuer) : Bool :=
  match issuer.revocation with
  | some r => !(r.revocationType = "NONE")
  | none => true

/-- The per-issuer issuance details (`data.details.issuance`): one
independent `issuerIssuance` result per issuer, in issuer order. -/
def issuanceDetails (caps : DidCapabilities) (proofEntries : List ProofEntry)
    (d : DidDocument) : List IssuanceStatus :=
  d.issuers.map (issuerIssuance caps proofEntries)

/-- `issuedOnAll`: pure reduction (conjunction of `issued`) over the
issuance details. -/
def issuedOnAllOf (caps : DidCapabilities) (proofEntries : List ProofEntry)
    (d : DidDocument) : Bool :=
  (issuanceDetails caps proofEntries d).all (fun s => s.issued)

/-- `revokedOnAny`: pure reduction (disjunction of revoked) over the issuers. -/
def revokedOnAnyOf (d : DidDocument) : Bool :=
  d.issuers.any issuerRevoked

/-- Modelled from the spec: `verify`.  A document missing the proof array is
a hard ERROR before per-issuer processing begins; a revocation block missing
for some issuer is a hard ERROR for the whole fragment; otherwise the
per-issuer issuance statuses are computed independently (one key-resolution
call per issuer — the second component is the trace of resolver calls
dispatched) and reduced: status VALID iff `issuedOnAll && !revokedOnAny`,
INVALID otherwise with no top-level reason (the per-issuer detail carries
it). -/
def verify (caps : DidCapabilities) (d : DidDocument) :
    VerificationFragment DidData × List String :=
  match d.proof with
  | none => (unexpectedErrorFragment ⟨"Document is not signed. Proofs are missing."⟩, [])
  | some proofEntries =>
    if d.issuers.any (fun issuer => issuer.revocation.isNone) then
      (unexpectedErrorFragment ⟨"revocation block not found for an issuer"⟩, [])
    else
      ({ name := name, type := type
         data := some (DidData.result (issuanceDetails caps proofEntries d)
           (issuedOnAllOf caps proofEntries d) (revokedOnAnyOf d))
         reason := none
         status :=
           if issuedOnAllOf caps proofEntries d && !revokedOnAnyOf d then FragmentStatus.VALID
           else FragmentStatus.INVALID }, d.issuers.map (fun issuer => issuer.did))

end OpenAttestationDidSignedDocumentStatus

/-! ## Document-store `execute` wrapper

`documentStore.ts` is present in the repository only through its
integration test suite; `execute` is modelled from the specification, with
the three literal failure messages pinned by that test suite. -/

/-- The chain state visible to the document-store wrapper: which addresses
have deployed contract code, and the issued/revoked hash sets readable
through the contract interface. -/
structure ChainState where
  deployed : List String
  issued : List String
  revoked : List String
  deriving Repr, DecidableEq

/-- The enumerated read methods of the document-store contract interface. -/
def documentStoreMethods : List String := ["isIssued", "isRevoked"]

/-- A hexadecimal digit character. -/
def isHexChar (c : Char) : Bool :=
  c.isDigit || (97 ≤ c.toNat && c.toNat ≤ 102) || (65 ≤ c.toNat && c.toNat ≤ 70)

/-- A `bytes32` ABI argument: `0x` followed by 64 hexadecimal digits. -/
def isBytes32 (s : String) : Bool :=
  s.length = 66 && s.take 2 = "0x" && (s.drop 2).all isHexChar

/-- Modelled from the spec: `execute(\x7bcontractAddress, method, args\x7d)`
resolves a fixed, enumerated method name against the deployed contract and
decodes its return value, distinguishing three failure kinds with literal
messages: no contract code at the address, method name not on the contract
interface, and an argument not conforming to the declared ABI type. -/
def execute (chain : ChainState) (contractAddress : String) (method : String)
    (args : List String) : Except String Bool :=
  if contractAddress ∉ chain.deployed then
    Except.error "contract not deployed"
  else if method ∉ documentStoreMethods then
    Except.error "contract.functions[method] is not a function"
  else
    match args with
    | [hash] =>
      if !(isBytes32 hash) then
        Except.error "invalid input argument"
      else if method = "isIssued" then
        Except.ok (hash ∈ chain.issued)
      else
        Except.ok (hash ∈ chain.revoked)
    | _ => Except.error "invalid input argument"

/-! ## Spec-side definition for the token-identifier refinement claim -/

/-- A hex string zero-padded on the left to the full 32-byte width
(64 hex digits). -/
def padTo32Bytes (s : String) : String :=
  ⟨List.replicate (64 - s.length) '0' ++ s.data⟩

/-- Written from the spec words, for comparison with `queriedTokenId` (which
is translated from the source): "the on-chain token identifier as the
document merkle root (hex-encoded, zero-padded)" — the merkle root
hex string zero-padded to the full 32-byte width, with the `0x` tag. -/
def spec_tokenId (d : TokenDocument) : String :=
  "0x" ++ padTo32Bytes d.signature.merkleRoot

/-! ## Concrete fixtures used by witnesses and counterexamples -/

/-- A registry contract address. -/
def registryA : String := "0x0a87b63e12f14b9a5e34b1ffcbf1ffeb49e87a07"

/-- A second, different registry contract address. -/
def registryB : String := "0x142ca30e3b78a840a82dd8d7a59edb067aaab5ba"

/-- A v2 issuer carrying the given token-registry address. -/
def issuerWithRegistry (r : String) : TokenIssuer :=
  { name := "Demo Issuer", tokenRegistry := some r }

/-- The canonical 64-hex-digit merkle root used by fixtures. -/
def merkleRoot64 : String :=
  "1a040999254caaf7a33cba67ec6a9b862da1dacf8a0d1e3bb76347060fc615d6"

/-- A v2 document whose issuers reference two distinct registries. -/
def docTwoRegistries : TokenDocument :=
  { kind := DocKind.v2
    issuers := [issuerWithRegistry registryA, issuerWithRegistry registryB]
    proof := none
    signature := { merkleRoot := merkleRoot64 } }

/-- A v2 document whose single issuer references one registry. -/
def docOneRegistry : TokenDocument :=
  { kind := DocKind.v2
    issuers := [issuerWithRegistry registryA]
    proof := none
    signature := { merkleRoot := merkleRoot64 } }

/-- A v2 document referencing one registry but carrying a short (non-64-digit)
merkle root string. -/
def docShortRoot : TokenDocument :=
  { kind := DocKind.v2
    issuers := [issuerWithRegistry registryA]
    proof := none
    signature := { merkleRoot := "ab" } }

/-- A v2 document whose issuers reference no token registry at all. -/
def docNoRegistry : TokenDocument :=
  { kind := DocKind.v2
    issuers := [{ name := "Demo Issuer", tokenRegistry := none }]
    proof := none
    signature := { merkleRoot := merkleRoot64 } }

/-- A chain oracle on which every token is owned by a nonzero address. -/
def oracleMintedAll : ChainOracle :=
  fun _ _ => Except.ok "0x142ca30e3b78a840a82dd8d7a59edb067aaab5ba"

/-- A chain oracle on which every token is owned by the zero address. -/
def oracleNotMinted : ChainOracle :=
  fun _ _ => Except.ok AddressZero

/-- A chain oracle on which every call rejects. -/
def oracleRejects : ChainOracle :=
  fun _ _ => Except.error ⟨"missing revert data in call exception"⟩

/-- The DID and key fixtures mirror the test fixtures of the DID-signed
verifier test suite. -/
def demoDid : String := "did:ethr:0xE712878f6E8d5d4F9e87E10DA604F9cB564C9a89"

/-- A second DID for multi-issuer fixtures. -/
def demoDid2 : String := "did:ethr:0x497c85ed89f1874ba37532d1e33519aba15bd533"

/-- The verification-method identifier of the resolved key for `demoDid`. -/
def demoKeyId : String :=
  "did:ethr:0xE712878f6E8d5d4F9e87E10DA604F9cB564C9a89#controller"

/-- The resolved public key for `demoDid`. -/
def demoKey : PublicKey :=
  { id := demoKeyId
    keyType := "Secp256k1VerificationKey2018"
    controller := demoDid }

/-- The proof entry matching `demoKeyId`. -/
def demoProofEntry : ProofEntry :=
  { verificationMethod := demoKeyId, signature := "0xsigned" }

/-- Capabilities under which `demoDid` resolves to `demoKey` and every
signature verifies. -/
def capsResolveOk : DidCapabilities :=
  { getPublicKey := fun did =>
      if did = demoDid then Except.ok demoKey
      else Except.error ("Unable to resolve " ++ did)
    verifySignature := fun _ _ => true }

/-- Capabilities under which key resolution always rejects. -/
def capsResolverDown : DidCapabilities :=
  { getPublicKey := fun _ => Except.error "Error from DID resolver"
    verifySignature := fun _ _ => true }

/-- A DID document with one issuer declaring a custom (non-NONE) revocation
mechanism, correctly signed. -/
def docCustomRevocation : DidDocument :=
  { issuers := [{ did := demoDid, revocation := some { revocationType := "CUSTOM" } }]
    proof := some [demoProofEntry] }

/-- A DID document with one issuer and the proof array missing entirely. -/
def docMissingProof : DidDocument :=
  { issuers := [{ did := demoDid, revocation := some { revocationType := "NONE" } }]
    proof := none }

/-- A two-issuer DID document with declared NONE revocation for both. -/
def docTwoIssuers : DidDocument :=
  { issuers :=
      [{ did := demoDid, revocation := some { revocationType := "NONE" } },
       { did := demoDid2, revocation := some { revocationType := "NONE" } }]
    proof := some [demoProofEntry] }

/-- A deployed document-store chain state for the `execute` witness. -/
def chainWithStore : ChainState :=
  { deployed := ["0x007d40224f6562461633ccfbaffd359ebb2fc9ba"]
    issued := ["0x" ++ merkleRoot64]
    revoked := [] }

/-! ## Shared helper lemmas -/

/-- `checkRegistry` never records a not-minted registry without a reason:
both the business-rule branch and the caught-failure branch attach one. -/
lemma checkRegistry_reason_isSome (oracle : ChainOracle) (mr r : String)
    (h : (openAttestationEthereumTokenRegistryStatus.checkRegistry oracle mr r).minted = false) :
    (openAttestationEthereumTokenRegistryStatus.checkRegistry oracle mr r).reason.isSome := by
  unfold openAttestationEthereumTokenRegistryStatus.checkRegistry at h ⊢
  cases ho : oracle r mr with
  | error e => simp [ho]
  | ok owner =>
    simp only [ho] at h ⊢
    by_cases hz : owner = AddressZero
    · simp [hz]
    · simp [hz] at h

/-- The trace of chain calls dispatched by the token-registry `verify` is
either empty (the catch-all path) or exactly one call per discovered
registry. -/
lemma tokenRegistry_trace_cases (oracle : ChainOracle) (d : TokenDocument) :
    (openAttestationEthereumTokenRegistryStatus.verify oracle d).2 = [] ∨
    (openAttestationEthereumTokenRegistryStatus.verify oracle d).2 =
      openAttestationEthereumTokenRegistryStatus.chainCallsFor d := by
  unfold openAttestationEthereumTokenRegistryStatus.verify
    openAttestationEthereumTokenRegistryStatus.verifyBody
  by_cases hg : (getIssuersTokenRegistry d).length > 1
  · simp [hg]
  · simp only [hg, if_false]
    cases hf : (openAttestationEthereumTokenRegistryStatus.tokenStatuses oracle d).find?
        (fun status => !status.minted) <;> simp [hf]

/-! ## Claims -/

/-- Claim C1: for every document and options, the token-registry verifier
`verify` never rejects or throws — it is a total function of the document
and the chain oracle — and any failure raised inside its body is caught and
returned as a fragment with status ERROR, `reason.code = UNEXPECTED_ERROR`
and `reason.message` equal to the caught failure description. -/
theorem tokenRegistry_verify_never_throws (oracle : ChainOracle) (d : TokenDocument)
    (e : JsError)
    (h : openAttestationEthereumTokenRegistryStatus.verifyBody oracle d = Except.error e) :
    (openAttestationEthereumTokenRegistryStatus.verify oracle d).1.status =
      FragmentStatus.ERROR ∧
    (openAttestationEthereumTokenRegistryStatus.verify oracle d).1.reason =
      some { code := OpenAttestationEthereumTokenRegistryStatusCode.UNEXPECTED_ERROR
             codeString := "UNEXPECTED_ERROR"
             message := e.message } := by
  unfold openAttestationEthereumTokenRegistryStatus.verify
  rw [h]
  exact ⟨rfl, rfl⟩

/-- Witness for C1: on a document with two distinct registries the body
throws, and `verify` converts the throw into the ERROR fragment. -/
theorem tokenRegistry_verify_never_throws_witness :
    openAttestationEthereumTokenRegistryStatus.verifyBody oracleMintedAll docTwoRegistries =
      Except.error ⟨"Only one token registry is allowed. Found 2"⟩ ∧
    (openAttestationEthereumTokenRegistryStatus.verify oracleMintedAll docTwoRegistries).1.status =
      FragmentStatus.ERROR ∧
    (openAttestationEthereumTokenRegistryStatus.verify oracleMintedAll docTwoRegistries).1.reason =
      some { code := OpenAttestationEthereumTokenRegistryStatusCode.UNEXPECTED_ERROR
             codeString := "UNEXPECTED_ERROR"
             message := "Only one token registry is allowed. Found 2" } := by
  refine ⟨by rfl, ?_⟩
  exact tokenRegistry_verify_never_throws oracleMintedAll docTwoRegistries
    ⟨"Only one token registry is allowed. Found 2"⟩ (by rfl)

/-- Claim C2: a document whose issuers reference more than one distinct
token-registry address makes `verify` return an ERROR fragment with no
chain call dispatched. -/
theorem tokenRegistry_multiRegistry_error_no_chain_call (oracle : ChainOracle)
    (d : TokenDocument) (h : 1 < (getIssuersTokenRegistry d).length) :
    (openAttestationEthereumTokenRegistryStatus.verify oracle d).1.status =
      FragmentStatus.ERROR ∧
    (openAttestationEthereumTokenRegistryStatus.verify oracle d).2 = [] := by
  unfold openAttestationEthereumTokenRegistryStatus.verify
    openAttestationEthereumTokenRegistryStatus.verifyBody
  simp [h, openAttestationEthereumTokenRegistryStatus.unexpectedErrorFragment]

/-- Witness for C2: the two-registry document yields ERROR and an empty
chain-call trace. -/
theorem tokenRegistry_multiRegistry_error_no_chain_call_witness :
    1 < (getIssuersTokenRegistry docTwoRegistries).length ∧
    (openAttestationEthereumTokenRegistryStatus.verify oracleMintedAll docTwoRegistries).1.status =
      FragmentStatus.ERROR ∧
    (openAttestationEthereumTokenRegistryStatus.verify oracleMintedAll docTwoRegistries).2 = [] :=
  ⟨by decide, tokenRegistry_multiRegistry_error_no_chain_call oracleMintedAll docTwoRegistries
    (by decide)⟩

/-- Claim C10: a document whose issuers reference zero token-registry
addresses reaches the reduction with an empty status list, so `verify`
returns VALID with `mintedOnAll = true` vacuously and dispatches no chain
call. -/
theorem tokenRegistry_no_registry_vacuously_valid (oracle : ChainOracle)
    (d : TokenDocument) (h : getIssuersTokenRegistry d = []) :
    (openAttestationEthereumTokenRegistryStatus.verify oracle d).1.status =
      FragmentStatus.VALID ∧
    (openAttestationEthereumTokenRegistryStatus.verify oracle d).1.data =
      some (TokenData.result true (openAttestationEthereumTokenRegistryStatus.detailsFor d [])) ∧
    (openAttestationEthereumTokenRegistryStatus.verify oracle d).2 = [] := by
  unfold openAttestationEthereumTokenRegistryStatus.verify
    openAttestationEthereumTokenRegistryStatus.verifyBody
  simp [h, openAttestationEthereumTokenRegistryStatus.tokenStatuses,
    openAttestationEthereumTokenRegistryStatus.chainCallsFor]

/-- Witness for C10: the registry-less document verifies VALID with an empty
trace. -/
theorem tokenRegistry_no_registry_vacuously_valid_witness :
    getIssuersTokenRegistry docNoRegistry = [] ∧
    (openAttestationEthereumTokenRegistryStatus.verify oracleMintedAll docNoRegistry).1.status =
      FragmentStatus.VALID ∧
    (openAttestationEthereumTokenRegistryStatus.verify oracleMintedAll docNoRegistry).1.data =
      some (TokenData.result true
        (openAttestationEthereumTokenRegistryStatus.detailsFor docNoRegistry [])) ∧
    (openAttestationEthereumTokenRegistryStatus.verify oracleMintedAll docNoRegistry).2 = [] :=
  ⟨by decide, tokenRegistry_no_registry_vacuously_valid oracleMintedAll docNoRegistry (by decide)⟩

/-- Claim C3: once the guard passes (at most one registry), the reduction
over the per-registry statuses determines the fragment: all minted gives
VALID with `mintedOnAll = true`; a first not-minted status (in registry
discovery order, as returned by `find?`) gives INVALID with
`mintedOnAll = false` and that status reason as the fragment reason. -/
theorem tokenRegistry_reduction (oracle : ChainOracle) (d : TokenDocument)
    (hg : ¬ 1 < (getIssuersTokenRegistry d).length) :
    ((openAttestationEthereumTokenRegistryStatus.tokenStatuses oracle d).all
        (fun s => s.minted) = true →
      (openAttestationEthereumTokenRegistryStatus.verify oracle d).1.status =
        FragmentStatus.VALID ∧
      (openAttestationEthereumTokenRegistryStatus.verify oracle d).1.data =
        some (TokenData.result true (openAttestationEthereumTokenRegistryStatus.detailsFor d
          (openAttestationEthereumTokenRegistryStatus.tokenStatuses oracle d)))) ∧
    (∀ nm : Status,
      (openAttestationEthereumTokenRegistryStatus.tokenStatuses oracle d).find?
          (fun s => !s.minted) = some nm →
      (openAttestationEthereumTokenRegistryStatus.verify oracle d).1.status =
        FragmentStatus.INVALID ∧
      (openAttestationEthereumTokenRegistryStatus.verify oracle d).1.data =
        some (TokenData.result false (openAttestationEthereumTokenRegistryStatus.detailsFor d
          (openAttestationEthereumTokenRegistryStatus.tokenStatuses oracle d))) ∧
      (openAttestationEthereumTokenRegistryStatus.verify oracle d).1.reason = nm.reason) := by
  constructor
  · intro hall
    have hnone : (openAttestationEthereumTokenRegistryStatus.tokenStatuses oracle d).find?
        (fun s => !s.minted) = none := by
      rw [List.find?_eq_none]
      intro s hs
      have hm := List.all_eq_true.mp hall s hs
      simp [hm]
    unfold openAttestationEthereumTokenRegistryStatus.verify
      openAttestationEthereumTokenRegistryStatus.verifyBody
    simp [hg, hnone]
  · intro nm hfind
    unfold openAttestationEthereumTokenRegistryStatus.verify
      openAttestationEthereumTokenRegistryStatus.verifyBody
    simp [hg, hfind]

/-- Witness for C3: a single-registry document on a chain where the token is
owned by the zero address reduces to INVALID with the first not-minted
reason. -/
theorem tokenRegistry_reduction_witness :
    (openAttestationEthereumTokenRegistryStatus.tokenStatuses oracleNotMinted docOneRegistry).find?
        (fun s => !s.minted) =
      some { minted := false, address := registryA
             reason := some (contractNotMinted ("0x" ++ merkleRoot64) registryA) } ∧
    (openAttestationEthereumTokenRegistryStatus.verify oracleNotMinted docOneRegistry).1.status =
      FragmentStatus.INVALID ∧
    (openAttestationEthereumTokenRegistryStatus.verify oracleNotMinted docOneRegistry).1.reason =
      some (contractNotMinted ("0x" ++ merkleRoot64) registryA) := by
  have h := (tokenRegistry_reduction oracleNotMinted docOneRegistry (by decide)).2
    { minted := false, address := registryA
      reason := some (contractNotMinted ("0x" ++ merkleRoot64) registryA) } (by rfl)
  exact ⟨by rfl, h.1, h.2.2⟩

/-- Counterexample for C4: on a document whose stored merkle root is the
short hex string "ab", the dispatched chain call carries the token
identifier "0xab" — the code only prepends the 0x tag — which is not the
zero-padded full-32-byte-width identifier the claim describes. -/
theorem tokenRegistry_tokenId_not_padded_cex :
    (openAttestationEthereumTokenRegistryStatus.verify oracleMintedAll docShortRoot).2 =
      [{ registry := registryA, tokenId := "0xab" }] ∧
    "0xab" ≠ spec_tokenId docShortRoot := by
  exact ⟨by rfl, by decide⟩

/-- Claim C4 amended: every chain call dispatched by `verify` queries the
token identifier obtained by prepending "0x" to the stored merkle root
string, with no padding applied; for a canonical full-width (64 hex digit)
merkle root this coincides with the zero-padded 32-byte identifier of the
claim. -/
theorem tokenRegistry_tokenId_amended (oracle : ChainOracle) (d : TokenDocument) :
    (∀ c ∈ (openAttestationEthereumTokenRegistryStatus.verify oracle d).2,
      c.tokenId = openAttestationEthereumTokenRegistryStatus.queriedTokenId d) ∧
    openAttestationEthereumTokenRegistryStatus.queriedTokenId d =
      "0x" ++ d.signature.merkleRoot ∧
    (d.signature.merkleRoot.length = 64 →
      openAttestationEthereumTokenRegistryStatus.queriedTokenId d = spec_tokenId d) := by
  refine ⟨?_, rfl, ?_⟩
  · intro c hc
    rcases tokenRegistry_trace_cases oracle d with ht | ht
    · rw [ht] at hc
      simp at hc
    · rw [ht] at hc
      unfold openAttestationEthereumTokenRegistryStatus.chainCallsFor at hc
      obtain ⟨r, _, hr⟩ := List.mem_map.mp hc
      rw [← hr]
  · intro h64
    unfold openAttestationEthereumTokenRegistryStatus.queriedTokenId spec_tokenId padTo32Bytes
    rw [h64]
    simp

/-- Witness for C4 amended: on the canonical 64-digit merkle root the
queried identifier equals the spec identifier, and the single dispatched
call carries it. -/
theorem tokenRegistry_tokenId_amended_witness :
    ({ registry := registryA
       tokenId := "0x" ++ merkleRoot64 } : ChainCall) ∈
      (openAttestationEthereumTokenRegistryStatus.verify oracleMintedAll docOneRegistry).2 ∧
    ({ registry := registryA, tokenId := "0x" ++ merkleRoot64 } : ChainCall).tokenId =
      openAttestationEthereumTokenRegistryStatus.queriedTokenId docOneRegistry ∧
    docOneRegistry.signature.merkleRoot.length = 64 ∧
    openAttestationEthereumTokenRegistryStatus.queriedTokenId docOneRegistry =
      spec_tokenId docOneRegistry := by
  have h := tokenRegistry_tokenId_amended oracleMintedAll docOneRegistry
  refine ⟨by decide, ?_, by decide, h.2.2 (by decide)⟩
  exact h.1 { registry := registryA, tokenId := "0x" ++ merkleRoot64 } (by decide)

/-- Any status of the per-registry pass recorded as not minted carries a
reason. -/
lemma tokenStatuses_not_minted_reason (oracle : ChainOracle) (d : TokenDocument) (s : Status)
    (hs : s ∈ openAttestationEthereumTokenRegistryStatus.tokenStatuses oracle d)
    (hm : s.minted = false) : s.reason.isSome := by
  unfold openAttestationEthereumTokenRegistryStatus.tokenStatuses at hs
  obtain ⟨r, _, hr⟩ := List.mem_map.mp hs
  rw [← hr] at hm ⊢
  exact checkRegistry_reason_isSome oracle (openAttestationEthereumTokenRegistryStatus.queriedTokenId d) r hm

/-- A non-VALID fragment returned by the try body of the token-registry
`verify` carries a reason. -/
lemma verifyBody_ok_reason (oracle : ChainOracle) (d : TokenDocument)
    (f : VerificationFragment TokenData) (calls : List ChainCall)
    (h : openAttestationEthereumTokenRegistryStatus.verifyBody oracle d = Except.ok (f, calls))
    (hs : f.status ≠ FragmentStatus.VALID) : f.reason.isSome := by
  unfold openAttestationEthereumTokenRegistryStatus.verifyBody at h
  by_cases hg : (getIssuersTokenRegistry d).length > 1
  · rw [if_pos hg] at h
    cases h
  · rw [if_neg hg] at h
    cases hf : (openAttestationEthereumTokenRegistryStatus.tokenStatuses oracle d).find?
        (fun status => !status.minted) with
    | none =>
      rw [hf] at h
      simp at h
      exact absurd (by rw [← h.1]) hs
    | some nm =>
      rw [hf] at h
      simp at h
      have hnm : nm.minted = false := by
        have := List.find?_some hf
        simpa using this
      have hr : nm.reason.isSome :=
        tokenStatuses_not_minted_reason oracle d nm (List.mem_of_find?_eq_some hf) hnm
      rw [← h.1]
      exact hr

/-- Counterexample for C5: the DID-signed verifier on a correctly signed
document whose issuer declares a custom revocation mechanism produces an
INVALID (non-VALID) fragment whose top-level reason is absent — the
per-issuer detail carries it instead. -/
theorem fragment_reason_population_cex :
    (OpenAttestationDidSignedDocumentStatus.verify capsResolveOk docCustomRevocation).1.status =
      FragmentStatus.INVALID ∧
    FragmentStatus.INVALID ≠ FragmentStatus.VALID ∧
    (OpenAttestationDidSignedDocumentStatus.verify capsResolveOk docCustomRevocation).1.reason =
      none :=
  ⟨by rfl, by decide, by rfl⟩

/-- Claim C5 amended: `reason` is populated whenever status is not VALID for
the skip fragments of both verifiers, for every fragment of the
token-registry `verify`, and for the ERROR fragments of the DID-signed
`verify`; the INVALID fragments of the DID-signed `verify` carry no
top-level reason (the per-issuer detail carries it). -/
theorem fragment_reason_population_amended (oracle : ChainOracle) (d : TokenDocument)
    (caps : DidCapabilities) (dd : DidDocument) :
    openAttestationEthereumTokenRegistryStatus.skip.reason.isSome = true ∧
    ((openAttestationEthereumTokenRegistryStatus.verify oracle d).1.status ≠
        FragmentStatus.VALID →
      (openAttestationEthereumTokenRegistryStatus.verify oracle d).1.reason.isSome = true) ∧
    OpenAttestationDidSignedDocumentStatus.skip.reason.isSome = true ∧
    ((OpenAttestationDidSignedDocumentStatus.verify caps dd).1.status = FragmentStatus.ERROR →
      (OpenAttestationDidSignedDocumentStatus.verify caps dd).1.reason.isSome = true) := by
  refine ⟨by rfl, ?_, by rfl, ?_⟩
  · intro hs
    unfold openAttestationEthereumTokenRegistryStatus.verify at hs ⊢
    cases hb : openAttestationEthereumTokenRegistryStatus.verifyBody oracle d with
    | error e => rfl
    | ok pr =>
      rw [hb] at hs
      exact verifyBody_ok_reason oracle d pr.1 pr.2 (by rw [hb]) hs
  · intro hs
    unfold OpenAttestationDidSignedDocumentStatus.verify at hs ⊢
    cases hp : dd.proof with
    | none => rfl
    | some pf =>
      by_cases hb : (dd.issuers.any (fun issuer => issuer.revocation.isNone)) = true
      · simp [hb, OpenAttestationDidSignedDocumentStatus.unexpectedErrorFragment]
      · rw [hp] at hs
        simp [hb] at hs
        split at hs <;> simp_all

/-- Witness for the C5 amended theorem: a not-minted single-registry
document gives a non-VALID token-registry fragment with a reason, and a
proof-less DID document gives an ERROR DID fragment with a reason. -/
theorem fragment_reason_population_amended_witness :
    (openAttestationEthereumTokenRegistryStatus.verify oracleNotMinted docOneRegistry).1.status ≠
      FragmentStatus.VALID ∧
    (openAttestationEthereumTokenRegistryStatus.verify oracleNotMinted docOneRegistry).1.reason.isSome =
      true ∧
    (OpenAttestationDidSignedDocumentStatus.verify capsResolveOk docMissingProof).1.status =
      FragmentStatus.ERROR ∧
    (OpenAttestationDidSignedDocumentStatus.verify capsResolveOk docMissingProof).1.reason.isSome =
      true := by
  have h := fragment_reason_population_amended oracleNotMinted docOneRegistry
    capsResolveOk docMissingProof
  exact ⟨by decide, h.2.1 (by decide), by rfl, h.2.2.2 (by rfl)⟩

/-- Claim C6: once `verify` reaches per-issuer processing (proof array
present, every issuer declaring a revocation block), an issuer whose
declared revocation type is not NONE is treated as revoked: the fragment
data has `revokedOnAny = true` and the status is INVALID, not ERROR. -/
theorem didSigned_custom_revocation_revoked (caps : DidCapabilities) (d : DidDocument)
    (pf : List ProofEntry) (hp : d.proof = some pf)
    (hb : (d.issuers.any (fun issuer => issuer.revocation.isNone)) = false)
    (i : DidIssuer) (hi : i ∈ d.issuers) (r : Revocation) (hr : i.revocation = some r)
    (hne : r.revocationType ≠ "NONE") :
    OpenAttestationDidSignedDocumentStatus.revokedOnAnyOf d = true ∧
    (OpenAttestationDidSignedDocumentStatus.verify caps d).1.data =
      some (DidData.result (OpenAttestationDidSignedDocumentStatus.issuanceDetails caps pf d)
        (OpenAttestationDidSignedDocumentStatus.issuedOnAllOf caps pf d) true) ∧
    (OpenAttestationDidSignedDocumentStatus.verify caps d).1.status =
      FragmentStatus.INVALID := by
  have hrev : OpenAttestationDidSignedDocumentStatus.issuerRevoked i = true := by
    unfold OpenAttestationDidSignedDocumentStatus.issuerRevoked
    rw [hr]
    simp [hne]
  have hany : OpenAttestationDidSignedDocumentStatus.revokedOnAnyOf d = true := by
    unfold OpenAttestationDidSignedDocumentStatus.revokedOnAnyOf
    exact List.any_eq_true.mpr ⟨i, hi, hrev⟩
  refine ⟨hany, ?_, ?_⟩ <;>
  · unfold OpenAttestationDidSignedDocumentStatus.verify
    rw [hp]
    simp [hb, hany]

/-- Witness for C6: the custom-revocation fixture verifies to INVALID with
`revokedOnAny = true`. -/
theorem didSigned_custom_revocation_revoked_witness :
    OpenAttestationDidSignedDocumentStatus.revokedOnAnyOf docCustomRevocation = true ∧
    (OpenAttestationDidSignedDocumentStatus.verify capsResolveOk docCustomRevocation).1.status =
      FragmentStatus.INVALID := by
  have h := didSigned_custom_revocation_revoked capsResolveOk docCustomRevocation
    [demoProofEntry] (by rfl) (by decide)
    { did := demoDid, revocation := some { revocationType := "CUSTOM" } } (by decide)
    { revocationType := "CUSTOM" } (by rfl) (by decide)
  exact ⟨h.1, h.2.2⟩

/-- Claim C7: a document missing the proof array entirely makes the
DID-signed `verify` return a whole-fragment ERROR with code UNEXPECTED_ERROR
and the missing-proofs message, before any per-issuer processing: no
key-resolution call is dispatched. -/
theorem didSigned_missing_proof_error (caps : DidCapabilities) (d : DidDocument)
    (h : d.proof = none) :
    (OpenAttestationDidSignedDocumentStatus.verify caps d).1.status = FragmentStatus.ERROR ∧
    (OpenAttestationDidSignedDocumentStatus.verify caps d).1.reason =
      some { code := OpenAttestationDidSignedDocumentStatus.UNEXPECTED_ERROR_CODE
             codeString := "UNEXPECTED_ERROR"
             message := "Document is not signed. Proofs are missing." } ∧
    (OpenAttestationDidSignedDocumentStatus.verify caps d).2 = [] := by
  unfold OpenAttestationDidSignedDocumentStatus.verify
  rw [h]
  exact ⟨rfl, rfl, rfl⟩

/-- Witness for C7: the proof-less fixture yields the missing-proofs ERROR
fragment and an empty resolver trace. -/
theorem didSigned_missing_proof_error_witness :
    (OpenAttestationDidSignedDocumentStatus.verify capsResolveOk docMissingProof).1.status =
      FragmentStatus.ERROR ∧
    (OpenAttestationDidSignedDocumentStatus.verify capsResolveOk docMissingProof).1.reason =
      some { code := OpenAttestationDidSignedDocumentStatus.UNEXPECTED_ERROR_CODE
             codeString := "UNEXPECTED_ERROR"
             message := "Document is not signed. Proofs are missing." } ∧
    (OpenAttestationDidSignedDocumentStatus.verify capsResolveOk docMissingProof).2 = [] :=
  didSigned_missing_proof_error capsResolveOk docMissingProof (by rfl)

/-- Claim C8: when key resolution rejects for one issuer (proof array
present, all revocation blocks declared), that issuer's per-issuer status is
`issued = false` with the resolver failure message as reason, all the other
issuers' statuses are still computed (one detail entry per issuer, each a
function of that issuer alone), and the fragment is INVALID, not ERROR. -/
theorem didSigned_resolver_failure_isolated (caps : DidCapabilities) (d : DidDocument)
    (pf : List ProofEntry) (hp : d.proof = some pf)
    (hb : (d.issuers.any (fun issuer => issuer.revocation.isNone)) = false)
    (i : DidIssuer) (hi : i ∈ d.issuers) (msg : String)
    (hfail : caps.getPublicKey i.did = Except.error msg) :
    OpenAttestationDidSignedDocumentStatus.issuerIssuance caps pf i =
      { did := i.did, issued := false, reason := some msg } ∧
    (OpenAttestationDidSignedDocumentStatus.issuanceDetails caps pf d).length =
      d.issuers.length ∧
    (OpenAttestationDidSignedDocumentStatus.verify caps d).1.data =
      some (DidData.result (OpenAttestationDidSignedDocumentStatus.issuanceDetails caps pf d)
        false (OpenAttestationDidSignedDocumentStatus.revokedOnAnyOf d)) ∧
    (OpenAttestationDidSignedDocumentStatus.verify caps d).1.status =
      FragmentStatus.INVALID := by
  have h1 : OpenAttestationDidSignedDocumentStatus.issuerIssuance caps pf i =
      { did := i.did, issued := false, reason := some msg } := by
    unfold OpenAttestationDidSignedDocumentStatus.issuerIssuance
    rw [hfail]
  have hmem : ({ did := i.did, issued := false, reason := some msg } : IssuanceStatus) ∈
      OpenAttestationDidSignedDocumentStatus.issuanceDetails caps pf d := by
    unfold OpenAttestationDidSignedDocumentStatus.issuanceDetails
    exact List.mem_map.mpr ⟨i, hi, h1⟩
  have hall : OpenAttestationDidSignedDocumentStatus.issuedOnAllOf caps pf d = false := by
    unfold OpenAttestationDidSignedDocumentStatus.issuedOnAllOf
    exact List.all_eq_false.mpr ⟨_, hmem, by simp⟩
  refine ⟨h1, by simp [OpenAttestationDidSignedDocumentStatus.issuanceDetails], ?_, ?_⟩ <;>
  · unfold OpenAttestationDidSignedDocumentStatus.verify
    rw [hp]
    simp [hb, hall]

/-- Witness for C8: with a resolver that always rejects, a two-issuer
document still produces both per-issuer entries and the fragment is
INVALID. -/
theorem didSigned_resolver_failure_isolated_witness :
    OpenAttestationDidSignedDocumentStatus.issuerIssuance capsResolverDown [demoProofEntry]
      { did := demoDid, revocation := some { revocationType := "NONE" } } =
      { did := demoDid, issued := false, reason := some "Error from DID resolver" } ∧
    (OpenAttestationDidSignedDocumentStatus.issuanceDetails capsResolverDown [demoProofEntry]
      docTwoIssuers).length = 2 ∧
    (OpenAttestationDidSignedDocumentStatus.verify capsResolverDown docTwoIssuers).1.status =
      FragmentStatus.INVALID := by
  have h := didSigned_resolver_failure_isolated capsResolverDown docTwoIssuers [demoProofEntry]
    (by rfl) (by decide)
    { did := demoDid, revocation := some { revocationType := "NONE" } } (by decide)
    "Error from DID resolver" (by rfl)
  refine ⟨h.1, ?_, h.2.2.2⟩
  rw [h.2.1]
  rfl

/-- Claim C9: a document-store `execute` call against an address with no
deployed contract code — in particular the zero address, where no contract
can ever be deployed — with method `isIssued` rejects with the literal
message "contract not deployed", which is distinct from the
invalid-argument and method-not-found messages. -/
theorem documentStore_execute_zero_address (chain : ChainState) (args : List String)
    (h : "0x0000000000000000000000000000000000000000" ∉ chain.deployed) :
    execute chain "0x0000000000000000000000000000000000000000" "isIssued" args =
      Except.error "contract not deployed" ∧
    ("contract not deployed" : String) ≠ "invalid input argument" ∧
    ("contract not deployed" : String) ≠ "contract.functions[method] is not a function" := by
  refine ⟨?_, by decide, by decide⟩
  unfold execute
  simp [h]

/-- Witness for C9: on a chain state where only the document-store address
carries code, the zero-address call rejects with the literal message. -/
theorem documentStore_execute_zero_address_witness :
    ("0x0000000000000000000000000000000000000000" ∉ chainWithStore.deployed) ∧
    execute chainWithStore "0x0000000000000000000000000000000000000000" "isIssued"
      ["0x" ++ merkleRoot64] = Except.error "contract not deployed" :=
  ⟨by decide, (documentStore_execute_zero_address chainWithStore ["0x" ++ merkleRoot64]
    (by decide)).1⟩
